import Mathlib

/-!
Shallow embedding of the session and knowledge-base lifecycle core of the
INTELLEX AI application (src/app.py): the Streamlit session-state fields, the
chat-history store, the create-versus-merge document-ingestion branch, and
the chat-input handler. External collaborators (document extraction, the
vector index, the chat engine's completion call) are modelled at the
granularity the handlers use them: an index is the list of documents it
holds, an engine is the index content it was derived from, and the
completion call is an abstract function parameter.
-/

/-- A document produced by the external extraction collaborator
(SimpleDirectoryReader.load_data in app.py), modelled by its text content. -/
abbrev Doc := String

/-- A chat message dictionary as appended in app.py: a role
("user" or "assistant") and text content. -/
structure Message where
  role : String
  content : String
deriving DecidableEq, Repr

/-- The vector index (VectorStoreIndex over FAISS in app.py), modelled by the
list of documents it holds: from_documents builds one holding exactly the
given batch, and insert appends a single document. -/
abbrev KB := List Doc

/-- The chat engine produced by index.as_chat_engine, modelled by the content
of the index it was derived from. -/
abbrev Engine := List Doc

/-- One record of st.session_state.chat_histories, as written by
save_current_chat and new_chat in app.py. -/
structure ChatData where
  messages : List Message
  chat_engine : Option Engine
  index : Option KB
deriving DecidableEq, Repr

/-- The Streamlit session-state fields that the core mutates (set up by
app.py's state-initialisation function). The session_id field used only to
build upload directory paths is omitted: no claim concerns it. -/
structure AppState where
  chat_histories : List (String × ChatData)
  current_chat_id : Option String
  messages : List Message
  chat_engine : Option Engine
  index : Option KB
  uploader_key : Nat
deriving DecidableEq, Repr

/-- Observable effects of a handler, recorded in execution order; used to
state invocation-count and ordering properties. -/
inductive Event where
  | flush
  | checkKbPresent (present : Bool)
  | createKb (docs : List Doc)
  | insertDoc (d : Doc)
  | deriveEngine
  | appendMsg (m : Message)
  | invokeCompletion (prompt : String)
  | warnNotReady
  | warnEmpty
  | errorNotFound
deriving DecidableEq, Repr

/-- Python dictionary assignment d[k] = v: replaces the value in place when
the key exists, otherwise appends the pair (insertion order preserved). -/
def dictInsert (k : String) (v : ChatData) : List (String × ChatData) → List (String × ChatData)
  | [] => [(k, v)]
  | (q, w) :: rest => if q = k then (k, v) :: rest else (q, w) :: dictInsert k v rest

/-- Python dictionary lookup d.get(k) returning None when absent. -/
def dictLookup (k : String) : List (String × ChatData) → Option ChatData
  | [] => none
  | (q, w) :: rest => if q = k then some w else dictLookup k rest

/-- save_current_chat (app.py lines 36-43): when the active chat id is truthy
(a non-None, non-empty string), store a copy of the live messages, chat
engine and index under that id. -/
def save_current_chat (s : AppState) : AppState × List Event :=
  match s.current_chat_id with
  | some cid =>
      if cid = "" then (s, [])
      else
        ({ s with chat_histories :=
              dictInsert cid ⟨s.messages, s.chat_engine, s.index⟩ s.chat_histories },
         [Event.flush])
  | none => (s, [])

/-- new_chat (app.py lines 45-54): flush the active chat, take the current
wall-clock second formatted as a string as the new id, reset the live fields,
bump the uploader key, and insert a blank record under the new id. The
timestamp string is a parameter here. -/
def new_chat (now : String) (s : AppState) : AppState × List Event :=
  let r := save_current_chat s
  let s1 := r.1
  let s2 := { s1 with
      current_chat_id := some now, messages := [], chat_engine := none,
      index := none, uploader_key := s1.uploader_key + 1 }
  ({ s2 with chat_histories := dictInsert now ⟨[], none, none⟩ s2.chat_histories }, r.2)

/-- load_chat (app.py lines 56-71): return immediately when the requested id
is already active; otherwise flush the active chat, then either load the
stored record (when found) or report an error and change nothing further. -/
def load_chat (chat_id : String) (s : AppState) : AppState × List Event :=
  if some chat_id = s.current_chat_id then (s, [])
  else
    let r := save_current_chat s
    let s1 := r.1
    match dictLookup chat_id s1.chat_histories with
    | some cd =>
        ({ s1 with
            current_chat_id := some chat_id, messages := cd.messages,
            chat_engine := cd.chat_engine, index := cd.index,
            uploader_key := s1.uploader_key + 1 }, r.2)
    | none => (s1, r.2 ++ [Event.errorNotFound])

/-- The document-processing handler (app.py lines 145-182), parameterised by
the already-extracted document batch: warn and return on an empty batch;
otherwise build a fresh index from the batch when none exists, or insert each
document into the existing index; finally re-derive the chat engine from the
updated index. -/
def process_documents (new_documents : List Doc) (s : AppState) : AppState × List Event :=
  if new_documents.isEmpty then (s, [Event.warnEmpty])
  else
    let r :=
      match s.index with
      | none =>
          ({ s with index := some new_documents },
           [Event.checkKbPresent false, Event.createKb new_documents])
      | some kb =>
          ({ s with index := some (new_documents.foldl (fun acc d => acc ++ [d]) kb) },
           [Event.checkKbPresent true] ++ new_documents.map Event.insertDoc)
    let engine := r.1.index.getD []
    ({ r.1 with chat_engine := some engine }, r.2 ++ [Event.deriveEngine])

/-- The chat-input handler (app.py lines 188-203); chatFn abstracts the
external chat_engine.chat completion call. The user message is appended
first; when no engine exists a not-ready warning fires and no assistant
message is produced; otherwise the completion runs, the assistant message is
appended, the chat is flushed, and the answer text is returned. -/
def ask (chatFn : Engine → String → String) (prompt : String) (s : AppState) :
    AppState × List Event × Option String :=
  let s1 := { s with messages := s.messages ++ [Message.mk "user" prompt] }
  match s1.chat_engine with
  | none => (s1, [Event.appendMsg (Message.mk "user" prompt), Event.warnNotReady], none)
  | some eng =>
      let response := chatFn eng prompt
      let s2 := { s1 with messages := s1.messages ++ [Message.mk "assistant" response] }
      let r := save_current_chat s2
      (r.1,
       [Event.appendMsg (Message.mk "user" prompt), Event.invokeCompletion prompt,
        Event.appendMsg (Message.mk "assistant" response)] ++ r.2,
       some response)

/-- The session-state defaults established at startup (app.py lines 26-34). -/
def initial_state : AppState :=
  { chat_histories := [], current_chat_id := none, messages := [],
    chat_engine := none, index := none, uploader_key := 0 }

/-- Number of messages with the given role. -/
def countRole (r : String) (ms : List Message) : Nat :=
  (ms.filter (fun m => m.role == r)).length

/-- Number of kb-presence checks recorded in a trace. -/
def countKbChecks (tr : List Event) : Nat :=
  (tr.filter (fun e => match e with | Event.checkKbPresent _ => true | _ => false)).length

/-- The active chat id, when set, has an entry in the history store; every
state the application reaches satisfies this, since both new_chat and
load_chat store a record under the id they activate. -/
def currentInStore (s : AppState) : Prop :=
  match s.current_chat_id with
  | none => True
  | some c => dictLookup c s.chat_histories ≠ none

instance (s : AppState) : Decidable (currentInStore s) := by
  unfold currentInStore
  cases s.current_chat_id <;> infer_instance

theorem dictLookup_dictInsert_self (k : String) (v : ChatData)
    (l : List (String × ChatData)) : dictLookup k (dictInsert k v l) = some v := by
  induction l with
  | nil => simp [dictInsert, dictLookup]
  | cons p rest ih =>
      obtain ⟨q, w⟩ := p
      by_cases hq : q = k
      · simp [dictInsert, dictLookup, hq]
      · simp [dictInsert, dictLookup, hq, ih]

theorem dictLookup_dictInsert_ne (k q : String) (v : ChatData)
    (l : List (String × ChatData)) (h : k ≠ q) :
    dictLookup k (dictInsert q v l) = dictLookup k l := by
  induction l with
  | nil => simp [dictInsert, dictLookup, h, Ne.symm h]
  | cons p rest ih =>
      obtain ⟨a, b⟩ := p
      by_cases ha : a = q
      · subst ha
        simp [dictInsert, dictLookup, h, Ne.symm h]
      · by_cases hak : a = k
        · subst hak
          simp [dictInsert, dictLookup, ha, h, Ne.symm h]
        · simp [dictInsert, dictLookup, ha, hak, ih]

theorem foldl_insert_eq_append (docs kb : List Doc) :
    docs.foldl (fun acc d => acc ++ [d]) kb = kb ++ docs := by
  induction docs generalizing kb with
  | nil => simp
  | cons d rest ih => simp [List.foldl_cons, ih]

theorem save_keeps_live_fields (s : AppState) :
    (save_current_chat s).1.current_chat_id = s.current_chat_id ∧
    (save_current_chat s).1.messages = s.messages ∧
    (save_current_chat s).1.chat_engine = s.chat_engine ∧
    (save_current_chat s).1.index = s.index := by
  unfold save_current_chat
  cases h : s.current_chat_id with
  | none => simp [h]
  | some c =>
      by_cases hc : c = "" <;> simp [h, hc]

theorem save_messages_eq (s : AppState) :
    (save_current_chat s).1.messages = s.messages :=
  (save_keeps_live_fields s).2.1

theorem save_chat_id_eq (s : AppState) :
    (save_current_chat s).1.current_chat_id = s.current_chat_id :=
  (save_keeps_live_fields s).1

theorem save_engine_eq (s : AppState) :
    (save_current_chat s).1.chat_engine = s.chat_engine :=
  (save_keeps_live_fields s).2.2.1

theorem save_index_eq (s : AppState) :
    (save_current_chat s).1.index = s.index :=
  (save_keeps_live_fields s).2.2.2

theorem countKbChecks_append (a b : List Event) :
    countKbChecks (a ++ b) = countKbChecks a + countKbChecks b := by
  simp [countKbChecks, List.filter_append]

theorem countKbChecks_insertDocs (ds : List Doc) :
    countKbChecks (ds.map Event.insertDoc) = 0 := by
  induction ds with
  | nil => rfl
  | cons d rest ih => simp [countKbChecks, List.filter_cons]

theorem countKbChecks_merge_trace (ds : List Doc) :
    countKbChecks
      ([Event.checkKbPresent true] ++ ds.map Event.insertDoc ++ [Event.deriveEngine]) = 1 := by
  have h0 := countKbChecks_insertDocs ds
  simp only [countKbChecks, List.filter_append, List.filter_cons, List.length_append] at h0 ⊢
  simp [h0]

theorem process_documents_create (docs : List Doc) (s : AppState)
    (h : docs.isEmpty = false) (hidx : s.index = none) :
    process_documents docs s =
      ({ s with index := some docs, chat_engine := some docs },
       [Event.checkKbPresent false, Event.createKb docs, Event.deriveEngine]) := by
  unfold process_documents
  simp [h, hidx]

theorem process_documents_merge (docs : List Doc) (s : AppState) (kb : List Doc)
    (h : docs.isEmpty = false) (hidx : s.index = some kb) :
    process_documents docs s =
      ({ s with index := some (kb ++ docs), chat_engine := some (kb ++ docs) },
       [Event.checkKbPresent true] ++ docs.map Event.insertDoc ++ [Event.deriveEngine]) := by
  unfold process_documents
  simp [h, hidx, foldl_insert_eq_append]

theorem isEmpty_false_of_ne_nil (docs : List Doc) (h : docs ≠ []) :
    docs.isEmpty = false := by
  cases docs with
  | nil => exact absurd rfl h
  | cons a l => rfl

/-- C1: every ingestion of a non-empty extracted batch checks kb presence
exactly once; when the session's index is absent a new knowledge base is
created from exactly the extracted documents, and when it is present the
documents are merged into the existing index, no create is performed, and no
previously indexed content is discarded. -/
theorem C1_create_vs_merge (docs : List Doc) (s : AppState) (h : docs ≠ []) :
    countKbChecks (process_documents docs s).2 = 1 ∧
    (s.index = none →
      (process_documents docs s).1.index = some docs ∧
      Event.createKb docs ∈ (process_documents docs s).2) ∧
    (∀ kb, s.index = some kb →
      (process_documents docs s).1.index = some (kb ++ docs) ∧
      (∀ ds, Event.createKb ds ∉ (process_documents docs s).2) ∧
      ∀ d ∈ kb, d ∈ kb ++ docs) := by
  have hne := isEmpty_false_of_ne_nil docs h
  refine ⟨?_, ?_, ?_⟩
  · cases hidx : s.index with
    | none =>
        rw [process_documents_create docs s hne hidx]
        rfl
    | some kb =>
        rw [process_documents_merge docs s kb hne hidx]
        exact countKbChecks_merge_trace docs
  · intro hidx
    rw [process_documents_create docs s hne hidx]
    exact ⟨rfl, by simp⟩
  · intro kb hidx
    rw [process_documents_merge docs s kb hne hidx]
    refine ⟨rfl, ?_, fun d hd => List.mem_append_left _ hd⟩
    intro ds
    simp

/-- Witness for C1 at a concrete input: one document ingested into a fresh
session with no knowledge base. -/
theorem C1_create_vs_merge_witness :
    (["a"] : List Doc) ≠ [] ∧
    (countKbChecks (process_documents ["a"] initial_state).2 = 1 ∧
     (initial_state.index = none →
       (process_documents ["a"] initial_state).1.index = some ["a"] ∧
       Event.createKb ["a"] ∈ (process_documents ["a"] initial_state).2) ∧
     (∀ kb, initial_state.index = some kb →
       (process_documents ["a"] initial_state).1.index = some (kb ++ ["a"]) ∧
       (∀ ds, Event.createKb ds ∉ (process_documents ["a"] initial_state).2) ∧
       ∀ d ∈ kb, d ∈ kb ++ ["a"])) :=
  ⟨by decide, C1_create_vs_merge ["a"] initial_state (by decide)⟩

/-- C2: a second ingestion on a session that already has an index inserts the
new documents incrementally into the same index (one insertion event per
document, no create event), content of both batches is in the resulting
index, and the chat engine is re-derived from the updated index before the
action completes. -/
theorem C2_merge_is_additive (kb docs : List Doc) (s : AppState)
    (hkb : s.index = some kb) (h : docs ≠ []) :
    (process_documents docs s).1.index = some (kb ++ docs) ∧
    (process_documents docs s).1.chat_engine = some (kb ++ docs) ∧
    (∀ d ∈ kb, d ∈ kb ++ docs) ∧
    (∀ d ∈ docs, d ∈ kb ++ docs) ∧
    (process_documents docs s).2 =
      [Event.checkKbPresent true] ++ docs.map Event.insertDoc ++ [Event.deriveEngine] := by
  have hne := isEmpty_false_of_ne_nil docs h
  rw [process_documents_merge docs s kb hne hkb]
  exact ⟨rfl, rfl, fun d hd => List.mem_append_left _ hd,
    fun d hd => List.mem_append_right _ hd, rfl⟩

/-- Witness for C2 at a concrete input: a session whose index already holds
one document receives a second batch of one document. -/
theorem C2_merge_is_additive_witness :
    ({ initial_state with index := some ["a"] } : AppState).index = some ["a"] ∧
    (["b"] : List Doc) ≠ [] ∧
    ((process_documents ["b"] { initial_state with index := some ["a"] }).1.index =
        some (["a"] ++ ["b"]) ∧
     (process_documents ["b"] { initial_state with index := some ["a"] }).1.chat_engine =
        some (["a"] ++ ["b"]) ∧
     (∀ d ∈ (["a"] : List Doc), d ∈ ["a"] ++ ["b"]) ∧
     (∀ d ∈ (["b"] : List Doc), d ∈ ["a"] ++ ["b"]) ∧
     (process_documents ["b"] { initial_state with index := some ["a"] }).2 =
       [Event.checkKbPresent true] ++ (["b"] : List Doc).map Event.insertDoc ++
         [Event.deriveEngine]) :=
  ⟨rfl, by decide,
   C2_merge_is_additive ["a"] ["b"] { initial_state with index := some ["a"] } rfl (by decide)⟩

/-- C3: two new-chat actions within the same wall-clock second format to the
same timestamp id, so the second creation overwrites the record of the first:
after two creations the store enumerates a single id, not two. -/
theorem C3_same_second_ids_collide :
    ((new_chat "2025-01-01_12-00-00"
        (new_chat "2025-01-01_12-00-00" initial_state).1).1.chat_histories.map Prod.fst =
      ["2025-01-01_12-00-00"]) ∧
    ((new_chat "2025-01-01_12-00-00"
        (new_chat "2025-01-01_12-00-00" initial_state).1).1.chat_histories.length = 1) :=
  ⟨rfl, rfl⟩

/-- C6: processing an empty extracted batch changes no state at all and only
emits the empty-input warning. -/
theorem C6_empty_batch_no_mutation (s : AppState) :
    process_documents [] s = (s, [Event.warnEmpty]) := rfl

/-- C7: loading the already-active chat id returns immediately: the state is
untouched and no flush event occurs. -/
theorem C7_switch_to_active_noop (chat_id : String) (s : AppState)
    (h : s.current_chat_id = some chat_id) :
    load_chat chat_id s = (s, []) := by
  unfold load_chat
  simp [h]

/-- Witness for C7 at a concrete input: a fresh session switched to its own
id. -/
theorem C7_switch_to_active_noop_witness :
    ((new_chat "A" initial_state).1.current_chat_id = some "A") ∧
    load_chat "A" (new_chat "A" initial_state).1 =
      ((new_chat "A" initial_state).1, []) :=
  ⟨rfl, C7_switch_to_active_noop "A" (new_chat "A" initial_state).1 rfl⟩

/-- C9: document ingestion never changes the active chat log nor any stored
chat log; the chat-input handler only ever appends to the log; and the only
operation that resets the log is an explicit new-chat action. -/
theorem C9_ingestion_preserves_chat_log (docs : List Doc) (s : AppState)
    (f : Engine → String → String) (p now : String) :
    (process_documents docs s).1.messages = s.messages ∧
    (process_documents docs s).1.chat_histories = s.chat_histories ∧
    (∃ t, (ask f p s).1.messages = s.messages ++ t) ∧
    (new_chat now s).1.messages = [] := by
  refine ⟨?_, ?_, ?_, rfl⟩
  · by_cases hd : docs.isEmpty
    · simp [process_documents, hd]
    · cases hidx : s.index with
      | none => rw [process_documents_create docs s (by simpa using hd) hidx]
      | some kb => rw [process_documents_merge docs s kb (by simpa using hd) hidx]
  · by_cases hd : docs.isEmpty
    · simp [process_documents, hd]
    · cases hidx : s.index with
      | none => rw [process_documents_create docs s (by simpa using hd) hidx]
      | some kb => rw [process_documents_merge docs s kb (by simpa using hd) hidx]
  · cases h1 : s.chat_engine with
    | none =>
        exact ⟨[Message.mk "user" p], by simp [ask, h1]⟩
    | some eng =>
        refine ⟨[Message.mk "user" p, Message.mk "assistant" (f eng p)], ?_⟩
        simp [ask, h1, save_messages_eq]

theorem countRole_append_one (r : String) (ms : List Message) (m : Message) :
    countRole r (ms ++ [m]) = countRole r ms + (if m.role == r then 1 else 0) := by
  cases h : (m.role == r) <;>
    simp [countRole, List.filter_append, List.filter_cons, h]

/-- C4: asking while the session has no chat engine appends the user message,
surfaces the not-ready warning, never invokes the completion collaborator,
appends no assistant message and returns no answer: afterwards the log has
exactly one more user message and the same number of assistant messages. -/
theorem C4_ask_not_ready (f : Engine → String → String) (p : String) (s : AppState)
    (h : s.chat_engine = none) :
    (ask f p s).1.messages = s.messages ++ [Message.mk "user" p] ∧
    (ask f p s).2.1 = [Event.appendMsg (Message.mk "user" p), Event.warnNotReady] ∧
    (ask f p s).2.2 = none ∧
    countRole "user" (ask f p s).1.messages = countRole "user" s.messages + 1 ∧
    countRole "assistant" (ask f p s).1.messages = countRole "assistant" s.messages ∧
    (∀ q, Event.invokeCompletion q ∉ (ask f p s).2.1) := by
  have hmsg : (ask f p s).1.messages = s.messages ++ [Message.mk "user" p] := by
    simp [ask, h]
  refine ⟨hmsg, by simp [ask, h], by simp [ask, h], ?_, ?_, by simp [ask, h]⟩
  · rw [hmsg, countRole_append_one]
    simp
  · rw [hmsg, countRole_append_one]
    simp

/-- Witness for C4 at a concrete input: a question asked in a fresh session
with no engine. -/
theorem C4_ask_not_ready_witness :
    initial_state.chat_engine = none ∧
    ((ask (fun _ _ => "") "hi" initial_state).1.messages =
        initial_state.messages ++ [Message.mk "user" "hi"] ∧
     (ask (fun _ _ => "") "hi" initial_state).2.1 =
        [Event.appendMsg (Message.mk "user" "hi"), Event.warnNotReady] ∧
     (ask (fun _ _ => "") "hi" initial_state).2.2 = none ∧
     countRole "user" (ask (fun _ _ => "") "hi" initial_state).1.messages =
        countRole "user" initial_state.messages + 1 ∧
     countRole "assistant" (ask (fun _ _ => "") "hi" initial_state).1.messages =
        countRole "assistant" initial_state.messages ∧
     (∀ q, Event.invokeCompletion q ∉ (ask (fun _ _ => "") "hi" initial_state).2.1)) :=
  ⟨rfl, C4_ask_not_ready (fun _ _ => "") "hi" initial_state rfl⟩

theorem dictLookup_save (k : String) (s : AppState)
    (h : ¬ some k = s.current_chat_id) :
    dictLookup k (save_current_chat s).1.chat_histories =
      dictLookup k s.chat_histories := by
  unfold save_current_chat
  cases hc : s.current_chat_id with
  | none => simp
  | some c =>
      by_cases hce : c = ""
      · simp [hce]
      · have hk : k ≠ c := by
          intro he
          rw [he] at h
          exact h hc.symm
        simp [hce, dictLookup_dictInsert_ne k c _ _ hk]

theorem load_chat_not_found (chat_id : String) (s : AppState)
    (hneq : ¬ some chat_id = s.current_chat_id)
    (habs : dictLookup chat_id (save_current_chat s).1.chat_histories = none) :
    load_chat chat_id s =
      ((save_current_chat s).1, (save_current_chat s).2 ++ [Event.errorNotFound]) := by
  unfold load_chat
  simp [hneq, habs]

/-- C5: switching to an id that has no record in the store surfaces the
not-found error and leaves the active id, the live chat log, the live chat
engine and the live index all unchanged. -/
theorem C5_switch_not_found (chat_id : String) (s : AppState)
    (habs : dictLookup chat_id s.chat_histories = none)
    (hcur : currentInStore s) :
    (load_chat chat_id s).1.current_chat_id = s.current_chat_id ∧
    (load_chat chat_id s).1.messages = s.messages ∧
    (load_chat chat_id s).1.chat_engine = s.chat_engine ∧
    (load_chat chat_id s).1.index = s.index ∧
    Event.errorNotFound ∈ (load_chat chat_id s).2 := by
  have hneq : ¬ some chat_id = s.current_chat_id := by
    cases hc : s.current_chat_id with
    | none => simp
    | some c =>
        simp only [currentInStore, hc] at hcur
        intro he
        have hce : chat_id = c := by
          injection he
        rw [hce] at habs
        exact hcur habs
  have habs2 : dictLookup chat_id (save_current_chat s).1.chat_histories = none := by
    rw [dictLookup_save chat_id s hneq]
    exact habs
  rw [load_chat_not_found chat_id s hneq habs2]
  exact ⟨save_chat_id_eq s, save_messages_eq s, save_engine_eq s, save_index_eq s, by simp⟩

/-- Witness for C5 at a concrete input: a fresh session asked to switch to an
unknown id. -/
theorem C5_switch_not_found_witness :
    dictLookup "B" (new_chat "A" initial_state).1.chat_histories = none ∧
    currentInStore (new_chat "A" initial_state).1 ∧
    ((load_chat "B" (new_chat "A" initial_state).1).1.current_chat_id =
        (new_chat "A" initial_state).1.current_chat_id ∧
     (load_chat "B" (new_chat "A" initial_state).1).1.messages =
        (new_chat "A" initial_state).1.messages ∧
     (load_chat "B" (new_chat "A" initial_state).1).1.chat_engine =
        (new_chat "A" initial_state).1.chat_engine ∧
     (load_chat "B" (new_chat "A" initial_state).1).1.index =
        (new_chat "A" initial_state).1.index ∧
     Event.errorNotFound ∈ (load_chat "B" (new_chat "A" initial_state).1).2) :=
  ⟨by decide, by decide,
   C5_switch_not_found "B" (new_chat "A" initial_state).1 (by decide) (by decide)⟩

/-- C8: asking while a chat engine is present appends the user message first,
then invokes the completion, then appends the assistant message carrying the
completion's answer, and returns that answer text, in that order. -/
theorem C8_commit_then_generate (f : Engine → String → String) (p : String)
    (s : AppState) (eng : Engine) (h : s.chat_engine = some eng) :
    (ask f p s).2.2 = some (f eng p) ∧
    (ask f p s).1.messages =
      s.messages ++ [Message.mk "user" p, Message.mk "assistant" (f eng p)] ∧
    (ask f p s).2.1.take 3 =
      [Event.appendMsg (Message.mk "user" p), Event.invokeCompletion p,
       Event.appendMsg (Message.mk "assistant" (f eng p))] := by
  refine ⟨by simp [ask, h], ?_, by simp [ask, h]⟩
  simp [ask, h, save_messages_eq]

/-- Witness for C8 at a concrete input: a session with an engine derived from
an empty index and a completion that always answers "ok". -/
theorem C8_commit_then_generate_witness :
    ({ initial_state with chat_engine := some [] } : AppState).chat_engine = some [] ∧
    ((ask (fun _ _ => "ok") "q" { initial_state with chat_engine := some [] }).2.2 =
        some "ok" ∧
     (ask (fun _ _ => "ok") "q" { initial_state with chat_engine := some [] }).1.messages =
        ({ initial_state with chat_engine := some [] } : AppState).messages ++
          [Message.mk "user" "q", Message.mk "assistant" "ok"] ∧
     (ask (fun _ _ => "ok") "q" { initial_state with chat_engine := some [] }).2.1.take 3 =
        [Event.appendMsg (Message.mk "user" "q"), Event.invokeCompletion "q",
         Event.appendMsg (Message.mk "assistant" "ok")]) :=
  ⟨rfl, C8_commit_then_generate (fun _ _ => "ok") "q"
    { initial_state with chat_engine := some [] } [] rfl⟩

/-- C10: a load_chat call for an id different from the (truthy) active id
flushes the live messages, engine and index into the store record of the
active id before the existence lookup, so even a failed switch leaves the
active session's store entry at its latest in-memory state; the flush is the
first recorded effect of the call. -/
theorem C10_flush_precedes_lookup (chat_id c : String) (s : AppState)
    (hc : s.current_chat_id = some c) (hne : c ≠ "") (hdiff : chat_id ≠ c) :
    dictLookup c (load_chat chat_id s).1.chat_histories =
      some (ChatData.mk s.messages s.chat_engine s.index) ∧
    (load_chat chat_id s).2.head? = some Event.flush := by
  have hsave : save_current_chat s =
      ({ s with chat_histories :=
            dictInsert c (ChatData.mk s.messages s.chat_engine s.index) s.chat_histories },
       [Event.flush]) := by
    unfold save_current_chat
    simp [hc, hne]
  have hneq : ¬ some chat_id = s.current_chat_id := by
    rw [hc]
    simp [hdiff]
  unfold load_chat
  simp only [if_neg hneq, hsave]
  cases hl : dictLookup chat_id
      (dictInsert c (ChatData.mk s.messages s.chat_engine s.index) s.chat_histories) with
  | some cd => simp [hl, dictLookup_dictInsert_self]
  | none => simp [hl, dictLookup_dictInsert_self]

/-- Witness for C10 at a concrete input: a fresh session switched towards an
unknown id still flushes its (empty) live state into its own store entry. -/
theorem C10_flush_precedes_lookup_witness :
    ((new_chat "A" initial_state).1.current_chat_id = some "A") ∧
    ("A" : String) ≠ "" ∧
    ("B" : String) ≠ "A" ∧
    (dictLookup "A" (load_chat "B" (new_chat "A" initial_state).1).1.chat_histories =
        some (ChatData.mk (new_chat "A" initial_state).1.messages
          (new_chat "A" initial_state).1.chat_engine
          (new_chat "A" initial_state).1.index) ∧
     (load_chat "B" (new_chat "A" initial_state).1).2.head? = some Event.flush) :=
  ⟨rfl, by decide, by decide,
   C10_flush_precedes_lookup "B" "A" (new_chat "A" initial_state).1 rfl
     (by decide) (by decide)⟩
